import Mathlib

/-!
Verification development for the pypdfproc PDF processor.

The Lean definitions below are shallow embeddings of functions and classes of
the Python source (file and line references are given on each definition).
Python byte strings are modelled as `List Nat` (one entry per byte), Python
floats as rationals, Python exceptions as values of `PyErr` carried in
`Except`, and Python dictionaries as association lists with first-match
lookup.  Theorems checking the specification sentences against these
embeddings follow the definitions.
-/

namespace Pypdfproc

/-- Python exception values raised by the embedded code. -/
inductive PyErr where
  | keyError (msg : String)
  | valueError (msg : String)
  | typeError (msg : String)
  | indexError (msg : String)
  | nameError (msg : String)
  | attributeError (msg : String)
  | notImplementedError (msg : String)
  deriving Repr, DecidableEq

instance {ε α : Type} [DecidableEq ε] [DecidableEq α] : DecidableEq (Except ε α)
  | .error e, .error f =>
    if h : e = f then .isTrue (by rw [h]) else .isFalse (fun hh => by cases hh; exact h rfl)
  | .error _, .ok _ => .isFalse (fun hh => by cases hh)
  | .ok _, .error _ => .isFalse (fun hh => by cases hh)
  | .ok x, .ok y =>
    if h : x = y then .isTrue (by rw [h]) else .isFalse (fun hh => by cases hh; exact h rfl)

/-- Python sequence indexing: a negative index counts from the end of the
sequence; any index outside `[-len, len)` is invalid. -/
def pyIndex (len : Nat) (i : Int) : Option Nat :=
  if 0 ≤ i then (if i < len then some i.toNat else none)
  else (if 0 ≤ i + len then some (i + len).toNat else none)

/-- Python `xs[i]` on a list/bytearray: `IndexError` outside `[-len, len)`. -/
def pyGet {α : Type} (xs : List α) (i : Int) : Except PyErr α :=
  match pyIndex xs.length i with
  | some n =>
    match xs.get? n with
    | some v => .ok v
    | none => .error (.indexError "index out of range")
  | none => .error (.indexError "index out of range")

/-- Python `xs[i] = v` on a bytearray. -/
def pySet {α : Type} (xs : List α) (i : Int) (v : α) : Except PyErr (List α) :=
  match pyIndex xs.length i with
  | some n => .ok (xs.set n v)
  | none => .error (.indexError "index assignment out of range")

/-- Decode-parameter dictionaries (`parms` in decoder/flate.py): name-to-integer
bindings; the values used by the decoder are the non-negative `Predictor` and
`Columns` entries. -/
abbrev Parms := List (String × Nat)

/-- Python `parms[k]` / `k in parms` support: first binding of `k`. -/
def parmLookup (parms : Parms) (k : String) : Option Nat :=
  (parms.find? (fun e => e.1 == k)).map (·.2)

/-- One iteration of the `for r,c in product(range(rows), range(col+1))` loop
of `PNG_Up` (decoder/flate.py lines 91-111).  `ret` is the bytearray being
filled; `previdx` may be negative, in which case the bytearray read wraps
around per Python indexing. -/
def pngUpStep (data : List Nat) (col : Nat) (ret : List Nat) (rc : Nat × Nat) :
    Except PyErr (List Nat) := do
  let r := rc.1
  let c := rc.2
  let idx := r * (col + 1) + c
  if c = 0 then
    if 0 < r then
      let v ← pyGet data idx
      if v ≠ 2 then
        throw (.valueError "predictor value expected to be 2: indicates change in predictor algorithm")
      else
        pure ret
    else
      pure ret
  else
    let previdx : Int := ((r : Int) - 1) * (col : Int) + ((c : Int) - 1)
    let nowidx : Int := (r : Int) * (col : Int) + ((c : Int) - 1)
    let d ← pyGet data (idx : Int)
    let p ← pyGet ret previdx
    pySet ret nowidx ((d + p) % 256)

/-- `PNG_Up` (decoder/flate.py lines 38-116): dices `data` into rows of
`Columns + 1` bytes, checks the per-row predictor byte, and adds each byte to
the output byte directly above it.  The bytearray `ret` is allocated with
`len(data)` zero bytes and returned whole at the end. -/
def PNG_Up (data : List Nat) (parms : Parms) : Except PyErr (List Nat) := do
  let some col := parmLookup parms "Columns"
    | throw (.valueError "Cannot do PNG Up predictor without knowing how many columns to use")
  if data.length % (col + 1) ≠ 0 then
    throw (.valueError "Expected a multiple of col+1 bytes")
  else
    let rows := data.length / (col + 1)
    let pairs := (List.range rows).flatMap (fun r => (List.range (col + 1)).map (fun c => (r, c)))
    pairs.foldlM (pngUpStep data col) (List.replicate data.length 0)

/-- `FlateDecode` (decoder/flate.py lines 8-36).  `inflate` stands for
`zlib.decompress`, which the decoder applies before undoing any predictor. -/
def FlateDecode (inflate : List Nat → List Nat) (data : List Nat) (parms : Parms) :
    Except PyErr (List Nat) :=
  let uncomp := inflate data
  match parmLookup parms "Predictor" with
  | none => .error (.keyError "Expected Predictor key in parameters. Required in this implementation.")
  | some pred =>
    if pred = 0 then .ok uncomp
    else if pred = 2 then .error (.notImplementedError "TIFF predictor 2 not implemented yet")
    else if pred = 10 then .error (.notImplementedError "PNG None predictor (10) not implemented yet")
    else if pred = 11 then .error (.notImplementedError "PNG Sub predictor (11) not implemented yet")
    else if pred = 12 then PNG_Up uncomp parms
    else if pred = 13 then .error (.notImplementedError "PNG Avg predictor (13) not implemented yet")
    else if pred = 14 then .error (.notImplementedError "PNG Paeth predictor (14) not implemented yet")
    else if pred = 15 then .error (.notImplementedError "PNG Optimum predictor (15) not implemented yet")
    else .error (.notImplementedError "Flate predictor unknown and cannot be implemented")

/-- C3: on the spec's own example, `PNG_Up` with `Columns = 3` does not return
exactly the six bytes `[2, 3, 4, 7, 3, 5]`: it returns the decoded rows
followed by one spurious zero byte per row, because the result buffer is
allocated with `len(data)` bytes and returned whole. -/
theorem png_up_returns_trailing_zero_bytes :
    PNG_Up [2, 2, 3, 4, 2, 5, 0, 1] [("Columns", 3)] = Except.ok [2, 3, 4, 7, 3, 5, 0, 0] ∧
    PNG_Up [2, 2, 3, 4, 2, 5, 0, 1] [("Columns", 3)] ≠ Except.ok [2, 3, 4, 7, 3, 5] := by
  constructor <;> decide

/-- C4 counterexample: when the decode parameters carry no `Predictor` entry,
`FlateDecode` does not return the inflated bytes unchanged (it raises
`KeyError` instead). -/
theorem flate_decode_no_predictor_not_inflated :
    FlateDecode id [1, 2, 3] [] ≠ Except.ok [1, 2, 3] := by
  decide

/-- C4 (amended): `FlateDecode` returns the inflated bytes unchanged when the
decode parameters carry `Predictor 0`; when they carry no `Predictor` entry at
all it raises a `KeyError` (the implementation requires the key). -/
theorem flate_decode_predictor_absent_or_zero (inflate : List Nat → List Nat)
    (data : List Nat) (parms : Parms) :
    (parmLookup parms "Predictor" = some 0 →
      FlateDecode inflate data parms = Except.ok (inflate data)) ∧
    (parmLookup parms "Predictor" = none →
      FlateDecode inflate data parms =
        Except.error (.keyError "Expected Predictor key in parameters. Required in this implementation.")) := by
  constructor
  · intro h
    simp [FlateDecode, h]
  · intro h
    simp [FlateDecode, h]

/-- C4 witness: the amended behavior at concrete inputs. -/
theorem flate_decode_predictor_absent_or_zero_witness :
    FlateDecode id [7, 8] [("Predictor", 0)] = Except.ok [7, 8] ∧
    FlateDecode id [7, 8] [] =
      Except.error (.keyError "Expected Predictor key in parameters. Required in this implementation.") :=
  ⟨(flate_decode_predictor_absent_or_zero id [7, 8] [("Predictor", 0)]).1 (by decide),
   (flate_decode_predictor_absent_or_zero id [7, 8] []).2 (by decide)⟩

/-! ## Cross-reference object map (pdf.py `PDF.MakeXRefMap`) -/

/-- One xref row (`XRefMapEntry`, pdf.py lines 137-149): object id, generation,
byte offset, and the in-use flag (`n` rows are `True`, `f` rows `False`). -/
structure XRefMapEntry where
  objid : Nat
  generation : Nat
  offset : Nat
  inuse : Bool
  deriving Repr, DecidableEq

/-- The `(objid, generation)` pair `p` under which a row is keyed
(pdf.py line 72). -/
def XRefMapEntry.key (me : XRefMapEntry) : Nat × Nat := (me.objid, me.generation)

/-- The rows (`x.offsets`) of one xref section. -/
abbrev XRefSection := List XRefMapEntry

/-- The object map `self.objmap`: a Python dict keyed by `(objid, generation)`
with integer offsets, modelled as an association list in insertion order. -/
abbrev ObjMap := List ((Nat × Nat) × Nat)

/-- Dict lookup / membership test on the object map. -/
def mlookup (m : ObjMap) (p : Nat × Nat) : Option Nat :=
  (m.find? (fun e => decide (e.1 = p))).map (·.2)

/-- Body of the row loop of `PDF.MakeXRefMap` (pdf.py lines 66-78): free rows
are skipped, and a used row is inserted only when its key is not already
mapped (an existing entry is never displaced). -/
def addRow (m : ObjMap) (me : XRefMapEntry) : ObjMap :=
  if me.inuse then
    if (mlookup m me.key).isSome then m
    else m ++ [(me.key, me.offset)]
  else m

/-- `PDF.MakeXRefMap` (pdf.py lines 47-82): starting from `self.rootxref` (the
newest section, parsed first) the walk follows `.next` toward ever older
sections, adding each section's rows to the map.  `chain` lists the sections
in that walk order, newest first. -/
def MakeXRefMap (chain : List XRefSection) : ObjMap :=
  chain.foldl (fun m x => x.foldl addRow m) []

/-- The newest definition of object `p` in the chain: the offset of the first
used row keyed `p`, in top-down (newest-first) walk order. -/
def newestDef (chain : List XRefSection) (p : Nat × Nat) : Option Nat :=
  (chain.flatten.find? (fun me => me.inuse && decide (me.key = p))).map (·.offset)

theorem mlookup_append (m m' : ObjMap) (p : Nat × Nat) :
    mlookup (m ++ m') p = (mlookup m p).orElse fun _ => mlookup m' p := by
  unfold mlookup
  rw [List.find?_append]
  cases m.find? (fun e => decide (e.1 = p)) <;> simp [Option.orElse]

theorem mlookup_single (k : Nat × Nat) (v : Nat) (p : Nat × Nat) :
    mlookup [(k, v)] p = if k = p then some v else none := by
  by_cases h : k = p <;> simp [mlookup, List.find?_cons, h]

theorem mlookup_eq_none_iff (m : ObjMap) (p : Nat × Nat) :
    mlookup m p = none ↔ ∀ e ∈ m, e.1 ≠ p := by
  simp [mlookup, List.find?_eq_none]

theorem mlookup_addRow_of_isSome (m : ObjMap) (me : XRefMapEntry) (p : Nat × Nat) (v : Nat)
    (h : mlookup m p = some v) : mlookup (addRow m me) p = some v := by
  unfold addRow
  split
  · split
    · exact h
    · rw [mlookup_append, h]; rfl
  · exact h

theorem foldl_sections_eq_join (chain : List XRefSection) (m : ObjMap) :
    chain.foldl (fun m x => x.foldl addRow m) m = chain.flatten.foldl addRow m := by
  induction chain generalizing m with
  | nil => rfl
  | cons x xs ih => simp [List.flatten, ih, List.foldl_append]

theorem mlookup_foldl_addRow (rows : List XRefMapEntry) (m : ObjMap) (p : Nat × Nat) :
    mlookup (rows.foldl addRow m) p =
      match mlookup m p with
      | some v => some v
      | none => (rows.find? (fun me => me.inuse && decide (me.key = p))).map (·.offset) := by
  induction rows generalizing m with
  | nil => cases h : mlookup m p <;> simp [h]
  | cons me rows ih =>
    rw [List.foldl_cons, ih]
    rcases h : mlookup m p with _ | v
    · by_cases hin : me.inuse
      · by_cases hk : me.key = p
        · have hnone : mlookup m me.key = none := by rw [hk]; exact h
          have hadd : mlookup (addRow m me) p = some me.offset := by
            rw [addRow, if_pos hin, hnone]
            simp [mlookup_append, h, mlookup_single, hk]
          simp [hadd, List.find?_cons, hin, hk]
        · have hadd : mlookup (addRow m me) p = none := by
            rw [addRow, if_pos hin]
            split
            · exact h
            · simp [mlookup_append, h, mlookup_single, hk]
          simp [hadd, List.find?_cons, hin, hk]
      · have hadd : addRow m me = m := by simp [addRow, hin]
        simp [hadd, h, List.find?_cons, hin]
    · have hadd := mlookup_addRow_of_isSome m me p v h
      simp [hadd]

theorem mem_foldl_addRow (rows : List XRefMapEntry) (m : ObjMap)
    (e : (Nat × Nat) × Nat) (h : e ∈ rows.foldl addRow m) :
    e ∈ m ∨ ∃ me ∈ rows, me.inuse ∧ me.key = e.1 ∧ me.offset = e.2 := by
  induction rows generalizing m with
  | nil => exact Or.inl h
  | cons me rows ih =>
    rw [List.foldl_cons] at h
    rcases ih (addRow m me) h with h' | ⟨me', hmem, hu, hk, ho⟩
    · unfold addRow at h'
      split at h'
      · split at h'
        · exact Or.inl h'
        · rcases List.mem_append.mp h' with h'' | h''
          · exact Or.inl h''
          · rcases List.mem_singleton.mp h'' with rfl
            exact Or.inr ⟨me, List.mem_cons_self .., by simp [*]⟩
      · exact Or.inl h'
    · exact Or.inr ⟨me', List.mem_cons_of_mem _ hmem, hu, hk, ho⟩

theorem pairwise_foldl_addRow (rows : List XRefMapEntry) (m : ObjMap)
    (h : List.Pairwise (fun a b => a.1 ≠ b.1) m) :
    List.Pairwise (fun a b => a.1 ≠ b.1) (rows.foldl addRow m) := by
  induction rows generalizing m with
  | nil => exact h
  | cons me rows ih =>
    rw [List.foldl_cons]
    refine ih _ ?_
    unfold addRow
    split
    · split
      · exact h
      · rename_i hnone
        rw [List.pairwise_append]
        refine ⟨h, List.pairwise_singleton _ _, ?_⟩
        intro a ha b hb
        rcases List.mem_singleton.mp hb with rfl
        have := (mlookup_eq_none_iff m me.key).mp (Option.not_isSome_iff_eq_none.mp hnone)
        exact this a ha
    · exact h

/-- C2: in the object map built by walking the xref chain newest-first, (1)
each live `(objid, generation)` pair has exactly one entry (all keys are
distinct); (2) every lookup returns the object's newest definition — the
offset of the first used row for that pair in walk order, so later rows never
displace earlier entries; (3) every map entry stems from a used row: free rows
are never entered. -/
theorem make_xref_map_newest_wins (chain : List XRefSection) :
    List.Pairwise (fun a b => a.1 ≠ b.1) (MakeXRefMap chain) ∧
    (∀ p : Nat × Nat, mlookup (MakeXRefMap chain) p = newestDef chain p) ∧
    (∀ e ∈ MakeXRefMap chain, ∃ me ∈ chain.flatten, me.inuse ∧ me.key = e.1 ∧ me.offset = e.2) := by
  refine ⟨?_, ?_, ?_⟩
  · rw [MakeXRefMap, foldl_sections_eq_join]
    exact pairwise_foldl_addRow _ _ List.Pairwise.nil
  · intro p
    rw [MakeXRefMap, foldl_sections_eq_join, mlookup_foldl_addRow, newestDef]
    rfl
  · intro e he
    rw [MakeXRefMap, foldl_sections_eq_join] at he
    rcases mem_foldl_addRow _ _ _ he with h | h
    · cases h
    · exact h

/-! ## Graphics and text state (parser/state.py) -/

/-- `Mat3x3` (parser/state.py lines 323-384): a 3x3 matrix stored as nine
numbers `A B G / C D H / E F I`. -/
structure Mat3x3 where
  A : ℚ
  B : ℚ
  C : ℚ
  D : ℚ
  E : ℚ
  F : ℚ
  G : ℚ
  H : ℚ
  I : ℚ
  deriving Repr, DecidableEq

/-- `Mat3x3(a, b, c, d, e, f)` with the default third column `(0, 0, 1)`. -/
def Mat3x3.ofSix (a b c d e f : ℚ) : Mat3x3 := ⟨a, b, c, d, e, f, 0, 0, 1⟩

/-- `Mat3x3.__mul__` (parser/state.py lines 356-380). -/
def Mat3x3.mul (a b : Mat3x3) : Mat3x3 :=
  ⟨a.A * b.A + a.B * b.C + a.G * b.E,
   a.A * b.B + a.B * b.D + a.G * b.F,
   a.C * b.A + a.D * b.C + a.H * b.E,
   a.C * b.B + a.D * b.D + a.H * b.F,
   a.E * b.A + a.F * b.C + a.I * b.E,
   a.E * b.B + a.F * b.D + a.I * b.F,
   a.A * b.G + a.B * b.H + a.G * b.I,
   a.C * b.G + a.D * b.H + a.H * b.I,
   a.E * b.G + a.F * b.H + a.I * b.I⟩

/-- `Mat3x3.Identity()` (parser/state.py lines 382-384). -/
def Mat3x3.identity : Mat3x3 := Mat3x3.ofSix 1 0 0 1 0 0

/-- `Pos` (parser/state.py lines 386-400), with `Pos.Origin() = Pos(0, 0)`. -/
structure Pos where
  X : ℚ
  Y : ℚ
  Z : ℚ
  deriving Repr, DecidableEq

def Pos.origin : Pos := ⟨0, 0, 1⟩

/-- `TextState` (parser/state.py lines 218-317).  `__init__` stores
`Tf = (None, None)`; that pair is modelled as separate absent font name and
font size.  `Tm` and `Tlm` are `None` outside a `BT ... ET` text object. -/
structure TextState where
  graphics : List String
  Tf : Option String
  Tfs : Option ℚ
  Tc : ℚ
  TL : ℚ
  Tr : Int
  Ts : ℚ
  Tw : ℚ
  Tz : ℚ
  Tm : Option Mat3x3
  Tlm : Option Mat3x3
  deriving Repr, DecidableEq

/-- `TextState.__init__` (parser/state.py lines 224-237). -/
def TextState.init : TextState :=
  { graphics := [], Tf := none, Tfs := none, Tc := 0, TL := 0, Tr := 0,
    Ts := 0, Tw := 0, Tz := 100, Tm := none, Tlm := none }

/-- `TextState.do_Td` (parser/state.py lines 287-288):
`self.Tm = self.Tlm = Mat3x3(1,0, 0,1, x,y) * self.Tlm` (the `Tm` property
setter also assigns `Tlm`).  Outside a text object `Tlm` is `None` and the
product raises `AttributeError` reading `None.A`. -/
def TextState.do_Td (ts : TextState) (x y : ℚ) : Except PyErr TextState :=
  match ts.Tlm with
  | none => .error (.attributeError "NoneType object has no attribute A")
  | some tlm =>
    let m := (Mat3x3.ofSix 1 0 0 1 x y).mul tlm
    .ok { ts with Tm := some m, Tlm := some m }

/-- The attribute names class `TextState` defines (parser/state.py lines
218-317): initializer, property getters/setters, properties, and operator
methods.  There is no `do_TL`. -/
def textStateAttrNames : List String :=
  ["__init__", "text_begin", "text_end",
   "get_Tc", "set_Tc", "Tc", "get_Tf", "set_Tf", "Tf",
   "get_Tfs", "set_Tfs", "Tfs", "get_TL", "set_TL", "TL",
   "get_Tlm", "set_Tlm", "Tlm", "get_Tm", "set_Tm", "Tm",
   "get_Tr", "set_Tr", "Tr", "get_Ts", "set_Ts", "Ts",
   "get_Tw", "set_Tw", "Tw", "get_Tz", "set_Tz", "Tz",
   "do_Td", "do_TD", "do_Tj", "do_Tstar"]

/-- `TextState.do_TD` (parser/state.py lines 290-292): `self.do_TL(-y)` then
`self.do_Td(x, y)`.  The attribute lookup `self.do_TL` searches the class
attributes; `TextState` defines no `do_TL`, so the lookup raises
`AttributeError` before anything is changed. -/
def TextState.do_TD (ts : TextState) (x y : ℚ) : Except PyErr TextState :=
  if textStateAttrNames.contains "do_TL" then
    TextState.do_Td { ts with TL := -y } x y
  else
    .error (.attributeError "TextState object has no attribute do_TL")

/-- C6: executing `TD` neither sets the leading `TL` to `-ty` nor performs
`Td`: for every text state and operand pair, the first step `self.do_TL(-y)`
raises `AttributeError` because `TextState` defines no `do_TL` method. -/
theorem do_TD_raises_attribute_error (ts : TextState) (x y : ℚ) :
    ts.do_TD x y = Except.error (.attributeError "TextState object has no attribute do_TL") := rfl

/-- `State` (parser/state.py lines 102-148): the graphics state exactly as
`State.__init__` populates it.  Fields that later operators may overwrite
with values of other shapes (`color`, `alphaconstant`) carry the type of
their initial value. -/
structure State where
  startpos : Pos
  pos : Pos
  ctm : Mat3x3
  clippath : List Pos
  colorspace : Int × Int
  color : Option ℚ × Option ℚ
  text : TextState
  linewidth : ℚ
  linecap : Int
  linejoin : Int
  miterlimit : ℚ
  dashpattern : List ℚ × ℚ
  renderingintent : Int
  strokeadjustment : Bool
  blendmode : Int
  softmask : Option String
  alphaconstant : ℚ
  alphasource : Bool
  deriving Repr, DecidableEq

/-- Numeric codes used by `State.__init__` (parser/state.py lines 8-50). -/
def CS_DeviceGray : Int := 0

def LC_Butt : Int := 0

def LJ_Miter : Int := 0

def RI_RelativeColorimetric : Int := 1

def BM_Normal : Int := 0

/-- `State.__init__` (parser/state.py lines 119-138). -/
def State.init : State :=
  { startpos := Pos.origin, pos := Pos.origin, ctm := Mat3x3.identity,
    clippath := [], colorspace := (CS_DeviceGray, CS_DeviceGray),
    color := (none, none), text := TextState.init, linewidth := 1,
    linecap := LC_Butt, linejoin := LJ_Miter, miterlimit := 10,
    dashpattern := ([], 0), renderingintent := RI_RelativeColorimetric,
    strokeadjustment := false, blendmode := BM_Normal, softmask := none,
    alphaconstant := 1, alphasource := false }

/-- `State.Copy` (parser/state.py lines 140-141): `copy.deepcopy(self)`; on
this immutable model a deep copy is the value itself. -/
def State.copy (s : State) : State := s

/-- The `StateManager` stack (parser/state.py lines 52-100), modelled top
first (the Python list keeps the top at the end).  `__init__` pushes one
initial `State`. -/
abbrev StateStack := List State

def stateManagerInit : StateStack := [State.init]

/-- `StateManager.Push` (parser/state.py lines 91-100), invoked by `q`: a
deep copy of the current top state is pushed; an empty stack is a fault. -/
def statePush (stack : StateStack) : Except PyErr StateStack :=
  match stack with
  | [] => .error (.valueError "Cannot push an empty stack")
  | s :: rest => .ok (s.copy :: s :: rest)

/-- `StateManager.Pop` (parser/state.py lines 78-89), invoked by `Q`: pops
the top; popping the last remaining (initial) state or an empty stack is a
fault. -/
def statePop (stack : StateStack) : Except PyErr StateStack :=
  match stack with
  | [] => .error (.valueError "Cannot pop an empty stack")
  | [_] => .error (.valueError "Cannot pop initial values of the stack")
  | _ :: rest => .ok rest

/-- C9: on any reachable (hence non-empty) state stack, `q` immediately
followed by `Q` leaves the stack — including the current graphics state and
its nested text state — identical to what it was before the pair ran. -/
theorem q_then_Q_restores_stack (s : State) (rest : List State) :
    (statePush (s :: rest)).bind statePop = Except.ok (s :: rest) := rfl

/-! ## Render driver (pypdfproc/__init__.py `PDF.RenderPages`) -/

/-- Callback invocations the user callback observes.  `pageEv p tag` stands
for a callback issued from inside `RenderPage` while rendering page `p`
(`page start`, `change font`, `glyph draw`, `space draw`, `page end`); the
driver-level events get constructors of their own. -/
inductive DriverEv where
  | pagesStart
  | pagesEnd
  | pageEv (page : Nat) (tag : String)
  | pageException
  deriving Repr, DecidableEq

/-- The page loop of `PDF.RenderPages` (pypdfproc/__init__.py lines 260-268).
`render p` yields the callback invocations `RenderPage` issues for page `p`
paired with the exception it raises, if any; `cb p` is the user callback's
truthiness on the `page exception` call made while handling page `p`. -/
def renderPagesLoop {E : Type} (render : Nat → List String × Option E) (cb : Nat → Bool) :
    List Nat → List DriverEv × Option E
  | [] => ([], none)
  | p :: ps =>
    let evs' := (render p).1.map (DriverEv.pageEv p)
    match (render p).2 with
    | none =>
      let next := renderPagesLoop render cb ps
      (evs' ++ next.1, next.2)
    | some e =>
      if cb p then (evs' ++ [DriverEv.pageException], some e)
      else
        let next := renderPagesLoop render cb ps
        (evs' ++ DriverEv.pageException :: next.1, next.2)

/-- `PDF.RenderPages` (pypdfproc/__init__.py lines 249-270): the
`render pages start` event, the page loop, then — unless an exception was
re-raised — the `render pages end` event. -/
def RenderPages {E : Type} (render : Nat → List String × Option E) (cb : Nat → Bool)
    (pages : List Nat) : List DriverEv × Option E :=
  let run := renderPagesLoop render cb pages
  match run.2 with
  | none => (DriverEv.pagesStart :: run.1 ++ [DriverEv.pagesEnd], none)
  | some e => (DriverEv.pagesStart :: run.1, some e)

/-- C5: when rendering page `p` raises exception `e`, the driver catches it
and invokes the user callback with `page exception` exactly once for that
page; if the callback returns falsy the loop continues with the remaining
pages, and if it returns truthy the driver re-raises `e`. -/
theorem render_pages_exception_policy {E : Type} (render : Nat → List String × Option E)
    (cb : Nat → Bool) (p : Nat) (ps : List Nat) (evs : List String) (e : E)
    (h : render p = (evs, some e)) :
    renderPagesLoop render cb (p :: ps) =
      (if cb p then (evs.map (DriverEv.pageEv p) ++ [DriverEv.pageException], some e)
       else (evs.map (DriverEv.pageEv p) ++ DriverEv.pageException ::
               (renderPagesLoop render cb ps).1, (renderPagesLoop render cb ps).2)) ∧
    (evs.map (DriverEv.pageEv p) ++ [DriverEv.pageException]).count DriverEv.pageException = 1 := by
  constructor
  · rw [renderPagesLoop, h]
  · rw [List.count_append]
    have h0 : (evs.map (DriverEv.pageEv p)).count DriverEv.pageException = 0 := by
      rw [List.count_eq_zero]
      intro hmem
      rcases List.mem_map.mp hmem with ⟨s, _, hs⟩
      cases hs
    rw [h0]
    rfl

/-- C5 witness: a two-page run where page `0` raises `"boom"`, the callback
returns falsy, and rendering continues with page `1`. -/
theorem render_pages_exception_policy_witness :
    renderPagesLoop (E := String) (fun _ => (["page start"], some "boom")) (fun _ => false) [0, 1] =
      (if (fun _ : Nat => false) 0 then
        (["page start"].map (DriverEv.pageEv 0) ++ [DriverEv.pageException], some "boom")
       else (["page start"].map (DriverEv.pageEv 0) ++ DriverEv.pageException ::
               (renderPagesLoop (fun _ => (["page start"], some "boom")) (fun _ => false) [1]).1,
             (renderPagesLoop (E := String) (fun _ => (["page start"], some "boom")) (fun _ => false) [1]).2)) ∧
    (["page start"].map (DriverEv.pageEv 0) ++ [DriverEv.pageException]).count DriverEv.pageException = 1 :=
  render_pages_exception_policy (fun _ => (["page start"], some "boom")) (fun _ => false) 0 [1]
    ["page start"] "boom" rfl

/-! ## Literal-string splitting (pypdfproc/__init__.py `SplitLiteral`) -/

/-- The backspace character, Python `"\b"`. -/
def backspaceChar : Char := Char.ofNat 8

/-- The form-feed character, Python `"\f"`. -/
def formfeedChar : Char := Char.ofNat 12

/-- Value of an ASCII digit character. -/
def octDigit (c : Char) : Nat := c.toNat - 48

/-- `SplitLiteral` (pypdfproc/__init__.py lines 577-637): split a literal
string into characters, decoding escape sequences.  The branch order and the
accesses `lit[i+1]`, `lit[i+2]`, `lit[i+3]` follow the source, including the
short-circuit evaluation of the octal conditions (`IndexError` past the end)
and the escaped-parenthesis branch, which reads the undefined name `lis` and
therefore raises `NameError`. -/
def SplitLiteral : List Char → Except PyErr (List Char)
  | [] => .ok []
  | c0 :: rest =>
    if c0 = '\\' then
      match rest with
      | [] => .error (.indexError "string index out of range")
      | c1 :: rest1 =>
        if c1 = '\\' then (SplitLiteral rest1).map (c0 :: ·)
        else if c1 = '\n' ∨ c1 = '\r' ∨ c1 = '\t' ∨ c1 = backspaceChar ∨ c1 = formfeedChar then
          (SplitLiteral rest1).map (c1 :: ·)
        else if c1 = 'n' then (SplitLiteral rest1).map ('\n' :: ·)
        else if c1 = 'r' then (SplitLiteral rest1).map ('\r' :: ·)
        else if c1 = 't' then (SplitLiteral rest1).map ('\t' :: ·)
        else if c1 = 'b' then (SplitLiteral rest1).map (backspaceChar :: ·)
        else if c1 = 'f' then (SplitLiteral rest1).map (formfeedChar :: ·)
        else if c1 = '(' ∨ c1 = ')' then
          .error (.nameError "name lis is not defined")
        else if c1.isDigit then
          match rest1 with
          | [] => .error (.indexError "string index out of range")
          | c2 :: rest2 =>
            if c2.isDigit then
              match rest2 with
              | [] => .error (.indexError "string index out of range")
              | c3 :: rest3 =>
                if c3.isDigit then
                  (SplitLiteral rest3).map
                    (Char.ofNat (64 * octDigit c1 + 8 * octDigit c2 + octDigit c3) :: ·)
                else
                  (SplitLiteral (c3 :: rest3)).map
                    (Char.ofNat (8 * octDigit c1 + octDigit c2) :: ·)
            else
              (SplitLiteral (c2 :: rest2)).map (Char.ofNat (octDigit c1) :: ·)
        else .error (.valueError "Unable to handle literal")
    else
      (SplitLiteral rest).map (c0 :: ·)
termination_by l => l.length
decreasing_by all_goals simp +arith [List.length_cons]

/-- C7: the literal-string splitter never emits the escaped parenthesis: on
the escape sequences backslash-open-paren and backslash-close-paren it raises
`NameError` for every continuation of the string, because the branch
references the undefined name `lis`. -/
theorem split_literal_escaped_paren_raises_name_error (rest : List Char) :
    SplitLiteral ('\\' :: '(' :: rest) = Except.error (.nameError "name lis is not defined") ∧
    SplitLiteral ('\\' :: ')' :: rest) = Except.error (.nameError "name lis is not defined") := by
  have hb1 : ('(' : Char) ≠ backspaceChar := by decide
  have hf1 : ('(' : Char) ≠ formfeedChar := by decide
  have hb2 : (')' : Char) ≠ backspaceChar := by decide
  have hf2 : (')' : Char) ≠ formfeedChar := by decide
  constructor <;> (rw [SplitLiteral.eq_def]; simp [hb1, hf1, hb2, hf2])

/-! ## Simple-font glyph lookup (fontcache.py `FontCache.GetGlyph_Enc_str`) -/

/-- A resolved glyph (`Glyph` in pypdfproc/glyph.py): character id, Unicode
string, advance width. -/
structure Glyph where
  cid : Nat
  unicode : String
  width : Int
  deriving Repr, DecidableEq

/-- The simple-font fields consulted by `FontCache.GetGlyph_Enc_str`
(fontcache.py lines 99-136).  `LastChar` is carried by every simple font
object, though this code path never reads it. -/
structure SimpleFont where
  Encoding : String
  FirstChar : Int
  LastChar : Int
  Widths : List Int
  deriving Repr, DecidableEq

/-- The WinAnsiEncoding bullet rule (fontcache.py lines 111-114): a code
above octal 40 (decimal 32) that is unassigned in the encoding map is
remapped to the bullet's code, octal 225 (decimal 149). -/
def winAnsiRemap (encmap : Nat → Option String) (enc : String) (cid0 : Nat) : Nat :=
  if (encmap cid0).isNone && enc == "WinAnsiEncoding" && decide (32 < cid0) then 149 else cid0

/-- `FontCache.GetGlyph_Enc_str` (fontcache.py lines 99-136).  `encmap` is
the named encoding's cid-to-glyph-name table
(`_encodingmap.MapCIDToGlyphName(f.Encoding)`), `uni` the
glyph-name-to-Unicode table (`_encodingmap.MapGlyphNameToUnicode`). -/
def GetGlyph_Enc_str (encmap : Nat → Option String) (uni : String → Option String)
    (f : SimpleFont) (cid0 : Nat) : Except PyErr Glyph :=
  let cid := winAnsiRemap encmap f.Encoding cid0
  match encmap cid with
  | none => .error (.valueError "Unable to find character code in encoding map")
  | some gname =>
    if (cid : Int) - f.FirstChar > f.Widths.length then
      .error (.keyError "Character code from the first character exceeds the widths array")
    else
      match uni gname with
      | none => .error (.notImplementedError "")
      | some u =>
        match pyGet f.Widths ((cid : Int) - f.FirstChar) with
        | .error e => .error e
        | .ok w => .ok { cid := cid, unicode := u, width := w }

/-- C8 counterexample: with `FirstChar = 70`, code `65` lies outside
`[FirstChar, LastChar]`, yet the lookup is not rejected: the only bound
check compares `cid - FirstChar` with `len(Widths)` from above, and the
width read `Widths[-5]` silently wraps to the end of the array, so a glyph
is returned. -/
theorem get_glyph_enc_str_accepts_code_below_first_char :
    GetGlyph_Enc_str (fun c => if c = 65 then some "A" else none)
        (fun g => if g = "A" then some "A" else none)
        { Encoding := "StandardEncoding", FirstChar := 70, LastChar := 90,
          Widths := [10, 20, 30, 40, 50] } 65 =
      Except.ok { cid := 65, unicode := "A", width := 10 } := by
  decide

/-- C8 (amended): glyph lookup rejects — before any width is read — exactly
those codes whose (possibly bullet-remapped) value is missing from the
encoding map, and those with `cid - FirstChar > len(Widths)`.  `LastChar` is
never consulted, and a surviving code reads its width with Python list
indexing at `cid - FirstChar`, so codes below `FirstChar` are not rejected
and succeed whenever the negative index stays within the array. -/
theorem get_glyph_enc_str_bound_checks (encmap : Nat → Option String)
    (uni : String → Option String) (f : SimpleFont) (cid0 : Nat) :
    (∀ L : Int, GetGlyph_Enc_str encmap uni { f with LastChar := L } cid0 =
        GetGlyph_Enc_str encmap uni f cid0) ∧
    (encmap (winAnsiRemap encmap f.Encoding cid0) = none →
      GetGlyph_Enc_str encmap uni f cid0 =
        Except.error (.valueError "Unable to find character code in encoding map")) ∧
    (∀ gname, encmap (winAnsiRemap encmap f.Encoding cid0) = some gname →
      (((winAnsiRemap encmap f.Encoding cid0 : Int) - f.FirstChar > f.Widths.length →
        GetGlyph_Enc_str encmap uni f cid0 =
          Except.error (.keyError "Character code from the first character exceeds the widths array")) ∧
      (∀ u, uni gname = some u →
        (winAnsiRemap encmap f.Encoding cid0 : Int) - f.FirstChar ≤ f.Widths.length →
        GetGlyph_Enc_str encmap uni f cid0 =
          (pyGet f.Widths ((winAnsiRemap encmap f.Encoding cid0 : Int) - f.FirstChar)).map
            (fun w => { cid := winAnsiRemap encmap f.Encoding cid0, unicode := u, width := w })))) := by
  refine ⟨fun _ => rfl, ?_, ?_⟩
  · intro h
    simp [GetGlyph_Enc_str, h]
  · intro gname hg
    constructor
    · intro hgt
      simp [GetGlyph_Enc_str, hg, if_pos hgt]
    · intro u hu hle
      rw [GetGlyph_Enc_str]
      simp only [hg, if_neg (not_lt.mpr hle), hu]
      cases pyGet f.Widths ((winAnsiRemap encmap f.Encoding cid0 : Int) - f.FirstChar) <;> rfl

/-- C8 witness: the amended behavior at a concrete font — code `66` with
`FirstChar = 60` reads `Widths[6] = 77`. -/
theorem get_glyph_enc_str_bound_checks_witness :
    GetGlyph_Enc_str (fun c => if c = 66 then some "B" else none)
        (fun g => if g = "B" then some "B" else none)
        { Encoding := "StandardEncoding", FirstChar := 60, LastChar := 90,
          Widths := [11, 22, 33, 44, 55, 66, 77] } 66 =
      Except.ok { cid := 66, unicode := "B", width := 77 } := by
  have h := (((get_glyph_enc_str_bound_checks (fun c => if c = 66 then some "B" else none)
      (fun g => if g = "B" then some "B" else none)
      { Encoding := "StandardEncoding", FirstChar := 60, LastChar := 90,
        Widths := [11, 22, 33, 44, 55, 66, 77] } 66).2.2 "B" (by decide)).2 "B"
      (by decide) (by decide))
  exact h.trans (by decide)

/-! ## Lazy stream decoding (pypdfproc/pdf.py `PDFStreamBase`) -/

/-- PDF values held in a stream object's dictionary. -/
inductive PdfVal where
  | name (s : String)
  | int (n : Int)
  | pdict (entries : List (String × PdfVal))

/-- First-match lookup in a stream object's dictionary. -/
def dictLookup (d : List (String × PdfVal)) (k : String) : Option PdfVal :=
  (d.find? (fun e => e.1 == k)).map (·.2)

/-- `PDFStreamBase` (pypdfproc/pdf.py lines 348-376): the dictionary, the raw
stream bytes, and the `Stream` slot of the instance `__dict__`, absent until
first access. -/
structure PDFStreamBase where
  Dict : List (String × PdfVal)
  StreamRaw : List Nat
  streamCache : Option (List Nat)

/-- `PDFStreamBase.__getattr__` for the attribute `Stream` (pypdfproc/pdf.py
lines 361-376).  Once the value sits in `__dict__`, normal attribute lookup
returns it and `__getattr__` is not invoked again.  Otherwise: with
`Filter = FlateDecode` the raw bytes are inflated (`zlib.decompress` alone —
`DecodeParms` is never consulted), cached and returned; any other filter
raises `ValueError`; with no `Filter` the raw bytes are cached and
returned. -/
def getStream (inflate : List Nat → List Nat) (o : PDFStreamBase) :
    Except PyErr (List Nat × PDFStreamBase) :=
  match o.streamCache with
  | some s => .ok (s, o)
  | none =>
    match dictLookup o.Dict "Filter" with
    | some v =>
      match v with
      | .name s =>
        if s = "FlateDecode" then
          let dec := inflate o.StreamRaw
          .ok (dec, { o with streamCache := some dec })
        else .error (.valueError "Unknown filter for content stream")
      | _ => .error (.valueError "Unknown filter for content stream")
    | none => .ok (o.StreamRaw, { o with streamCache := some o.StreamRaw })

/-- C10: for a stream object whose dictionary has `Filter = FlateDecode`, the
first `Stream` read returns exactly the plain inflation of `StreamRaw` —
whatever `DecodeParms` entry the dictionary carries is ignored on this path
and no predictor is undone — the value is cached, and every later read
returns the same cached value. -/
theorem stream_attribute_plain_inflate (inflate : List Nat → List Nat)
    (d : List (String × PdfVal)) (raw : List Nat)
    (hf : dictLookup d "Filter" = some (.name "FlateDecode")) :
    getStream inflate ⟨d, raw, none⟩ =
      Except.ok (inflate raw, ⟨d, raw, some (inflate raw)⟩) ∧
    getStream inflate ⟨d, raw, some (inflate raw)⟩ =
      Except.ok (inflate raw, ⟨d, raw, some (inflate raw)⟩) := by
  constructor
  · simp [getStream, hf]
  · rfl

/-- C10 witness: a dictionary carrying `DecodeParms` with `Predictor 12` and
`Columns 3`; the first read returns the inflated bytes with the PNG-Up
predictor left applied, and the second read returns the cached value. -/
theorem stream_attribute_plain_inflate_witness :
    getStream id ⟨[("Filter", .name "FlateDecode"),
                   ("DecodeParms", .pdict [("Predictor", .int 12), ("Columns", .int 3)])],
                  [2, 2, 3, 4, 2, 5, 0, 1], none⟩ =
      Except.ok ([2, 2, 3, 4, 2, 5, 0, 1],
        ⟨[("Filter", .name "FlateDecode"),
          ("DecodeParms", .pdict [("Predictor", .int 12), ("Columns", .int 3)])],
         [2, 2, 3, 4, 2, 5, 0, 1], some [2, 2, 3, 4, 2, 5, 0, 1]⟩) ∧
    getStream id ⟨[("Filter", .name "FlateDecode"),
                   ("DecodeParms", .pdict [("Predictor", .int 12), ("Columns", .int 3)])],
                  [2, 2, 3, 4, 2, 5, 0, 1], some [2, 2, 3, 4, 2, 5, 0, 1]⟩ =
      Except.ok ([2, 2, 3, 4, 2, 5, 0, 1],
        ⟨[("Filter", .name "FlateDecode"),
          ("DecodeParms", .pdict [("Predictor", .int 12), ("Columns", .int 3)])],
         [2, 2, 3, 4, 2, 5, 0, 1], some [2, 2, 3, 4, 2, 5, 0, 1]⟩) :=
  stream_attribute_plain_inflate id _ _ rfl

/-! ## Restartable stream tokenization (parser/__init__.py `_LoadObject`) -/

/-- The parameter names of `TokenizeString` as defined at parser/pdf.py line
118: `def TokenizeString(dat, pos=None, stoptoken=None)`. -/
def tokenizeStringParamNames : List String := ["dat", "pos", "stoptoken"]

/-- The top-level names module `pypdfproc.parser.pdf` defines (the module
that `_LoadObject` uses as `pdfloc`): the imported `plylex`, the token-name
tuple, the `t_...` lexer rules, the lexer instance, the tokenizer, and the
consolidator.  No exception class is among them — in particular no
`NeedStreamLegnthError`. -/
def pdflocModuleNames : List String :=
  ["plylex", "tokens",
   "t_DICT_START", "t_DICT_END", "t_ARR_START", "t_ARR_END", "t_LIT_START", "t_LIT_END",
   "t_true", "t_false", "t_obj", "t_endobj", "t_stream", "t_endstream", "t_trailer",
   "t_xref", "t_xref_start", "t_xref_free", "t_xref_inuse", "t_indirect",
   "t_EOF", "t_COMMENT", "t_FLOAT", "t_INT", "t_NAME", "t_HEXSTRING", "t_error", "t_WS",
   "t_ignore", "lexer", "TokenizeString", "ConsolidateTokens", "ConsolidateTokensClass",
   "TokenIterator"]

/-- Python call semantics: a keyword argument whose name is not among the
callee's parameters raises `TypeError` before the callee's body runs. -/
def pyKwargsAccepted (params kwargs : List String) : Bool :=
  kwargs.all params.contains

/-- The keyword-argument names `PDFTokenizer._LoadObject` passes on its
tokenize call (parser/__init__.py line 371):
`pdfloc.TokenizeString(dat, stoptoken="endobj", streamlength=streamlength)`. -/
def loadObjectTokenizeKwargs : List String := ["stoptoken", "streamlength"]

/-- The tokenize call made by `_LoadObject`, with the callee's body behavior
abstracted as `run`: the body runs only when every keyword argument is
accepted by the callee's parameter list. -/
def loadObjectTokenizeCall {α : Type} (run : String → Except PyErr α) (dat : String) :
    Except PyErr α :=
  if pyKwargsAccepted tokenizeStringParamNames loadObjectTokenizeKwargs then run dat
  else .error (.typeError "TokenizeString got an unexpected keyword argument streamlength")

/-- C1: the restartable-lexing flow does not work in the code.  The tokenize
call `_LoadObject` makes passes a `streamlength` keyword argument that
`TokenizeString` does not accept, so for every object — stream-bearing or
not, whatever the tokenizer body would do — the very first call raises
`TypeError`; no NeedsStreamLength sentinel is ever produced, no `Length`
resolution and no retry happen.  Moreover the exception class
`NeedStreamLegnthError` named by the recovery path's `except` clause is not
among the names the `pdfloc` module defines. -/
theorem load_object_stream_length_flow_broken {α : Type}
    (run : String → Except PyErr α) (dat : String) :
    loadObjectTokenizeCall run dat =
      Except.error (.typeError "TokenizeString got an unexpected keyword argument streamlength") ∧
    pdflocModuleNames.contains "NeedStreamLegnthError" = false :=
  ⟨rfl, rfl⟩

end Pypdfproc
